import Mathlib

/-!
Shallow embedding of the track-routing core of the inlivehub/sfu SFU
(files `track.go` of the current tree). Pure Lean translations of the
functions the verified claims are about: `RIDToQuality`, the simulcast
bundle state with `AddRemoteTrack`, `IsRelay`, `isTrackActive` and the
per-quality accessors, the single-encoding `Track.subscribe` dispatch and
the `onRead` fan-out discipline, and the `trackList` registry.

Go machine integers that matter here (nanosecond timestamps) are modelled
as `Int`; nothing in the modelled code overflows. Stateful methods become
explicit state-passing functions. Event emission (the completion
callbacks, PLI sends, callback invocations) is recorded in the returned
values so that temporal claims become statements about those records.
-/

/-- Quality levels of a simulcast encoding (source type `QualityLevel`,
modelled from the spec data model as the three-valued enumeration
low < mid < high; `RIDToQuality` only ever produces these three values). -/
inductive QualityLevel where
  | low
  | mid
  | high
deriving DecidableEq, Repr

/-- Source `RIDToQuality`: RID "high" and "mid" map to their quality,
every other RID string falls to the default branch and maps to low. -/
def RIDToQuality (RID : String) : QualityLevel :=
  if RID = "high" then QualityLevel.high
  else if RID = "mid" then QualityLevel.mid
  else QualityLevel.low

/-- The observable fields of a `remoteTrack` wrapper that the modelled
methods read: the wrapped track's SSRC and RID, and the relay flag. -/
structure RemoteTrackModel where
  ssrc : Nat
  rid : String
  isRelay : Bool
deriving DecidableEq, Repr

/-- The fields of `SimulcastTrack` state that the modelled methods touch:
the three quality slots and the per-quality last-read nanosecond
timestamps (atomics in the source). -/
structure SimulcastTrackState where
  remoteTrackHigh : Option RemoteTrackModel
  remoteTrackMid : Option RemoteTrackModel
  remoteTrackLow : Option RemoteTrackModel
  lastReadHighTS : Int
  lastReadMidTS : Int
  lastReadLowTS : Int
deriving DecidableEq, Repr

/-- A freshly constructed simulcast bundle: no slot occupied, last-read
timestamps zero (the zero value of the atomics). -/
def emptySimulcast : SimulcastTrackState :=
  { remoteTrackHigh := none
    remoteTrackMid := none
    remoteTrackLow := none
    lastReadHighTS := 0
    lastReadMidTS := 0
    lastReadLowTS := 0 }

/-- Result of one `SimulcastTrack.AddRemoteTrack` call: the returned
handle (nil in the source's default branch), the updated bundle state,
and whether the `onTrackComplete` callbacks ran during this call. -/
structure AddResult where
  handle : Option RemoteTrackModel
  state : SimulcastTrackState
  completeFired : Bool
deriving DecidableEq, Repr

namespace SimulcastTrack

/-- Source `SimulcastTrack.AddRemoteTrack`: map the RID to a quality,
install the remote track at that quality's slot (the `default` switch
branch warns and returns nil), then run the completion callbacks if all
three slots are occupied afterwards. -/
def AddRemoteTrack (t : SimulcastTrackState) (track : RemoteTrackModel) : AddResult :=
  let quality := RIDToQuality track.rid
  let installed : Option SimulcastTrackState :=
    if quality = QualityLevel.high then
      some { t with remoteTrackHigh := some track }
    else if quality = QualityLevel.mid then
      some { t with remoteTrackMid := some track }
    else if quality = QualityLevel.low then
      some { t with remoteTrackLow := some track }
    else
      none
  match installed with
  | none => { handle := none, state := t, completeFired := false }
  | some t1 =>
      let fired := t1.remoteTrackHigh.isSome && t1.remoteTrackMid.isSome
        && t1.remoteTrackLow.isSome
      { handle := some track, state := t1, completeFired := fired }

/-- A sequence of `AddRemoteTrack` calls on one bundle, returning the
final state and how many times the completion callbacks ran in total. -/
def addTracks (t : SimulcastTrackState) (tracks : List RemoteTrackModel) :
    SimulcastTrackState × Nat :=
  match tracks with
  | [] => (t, 0)
  | tr :: rest =>
      let r := AddRemoteTrack t tr
      let p := addTracks r.state rest
      (p.1, (if r.completeFired then 1 else 0) + p.2)

/-- Source `SimulcastTrack.getRemoteTrack`: the slot of a quality. -/
def getRemoteTrack (t : SimulcastTrackState) (q : QualityLevel) : Option RemoteTrackModel :=
  match q with
  | QualityLevel.high => t.remoteTrackHigh
  | QualityLevel.mid => t.remoteTrackMid
  | QualityLevel.low => t.remoteTrackLow

/-- The last-read nanosecond timestamp of a quality slot. -/
def lastReadTS (t : SimulcastTrackState) (q : QualityLevel) : Int :=
  match q with
  | QualityLevel.high => t.lastReadHighTS
  | QualityLevel.mid => t.lastReadMidTS
  | QualityLevel.low => t.lastReadLowTS

/-- Source `SimulcastTrack.isTrackActive`: a quality is active when its
slot is non-nil and `time.Since` of its last read does not exceed the
500 ms threshold. `now` is the current wall clock in nanoseconds. -/
def isTrackActive (t : SimulcastTrackState) (now : Int) (quality : QualityLevel) : Bool :=
  let threshold : Int := 500 * 1000000
  match quality with
  | QualityLevel.high =>
      match t.remoteTrackHigh with
      | none => false
      | some _ => if now - t.lastReadHighTS > threshold then false else true
  | QualityLevel.mid =>
      match t.remoteTrackMid with
      | none => false
      | some _ => if now - t.lastReadMidTS > threshold then false else true
  | QualityLevel.low =>
      match t.remoteTrackLow with
      | none => false
      | some _ => if now - t.lastReadLowTS > threshold then false else true

/-- Source `SimulcastTrack.IsRelay`: an if-else chain that returns the
relay flag of the high slot when occupied, else of the mid slot, else of
the low slot, else false. -/
def IsRelay (t : SimulcastTrackState) : Bool :=
  match t.remoteTrackHigh with
  | some rt => rt.isRelay
  | none =>
      match t.remoteTrackMid with
      | some rt => rt.isRelay
      | none =>
          match t.remoteTrackLow with
          | some rt => rt.isRelay
          | none => false

/-- Modelled from the spec: "is_relay: true if any quality is a relay" —
true when some occupied quality slot holds a relay remote track. Stated
from the spec's words to compare against the source `IsRelay`. -/
def anyOccupiedRelay (t : SimulcastTrackState) : Bool :=
  (match t.remoteTrackHigh with | some rt => rt.isRelay | none => false)
  || (match t.remoteTrackMid with | some rt => rt.isRelay | none => false)
  || (match t.remoteTrackLow with | some rt => rt.isRelay | none => false)

/-- The first occupied quality slot in the order high, mid, low. -/
def firstOccupied (t : SimulcastTrackState) : Option RemoteTrackModel :=
  match t.remoteTrackHigh with
  | some rt => some rt
  | none =>
      match t.remoteTrackMid with
      | some rt => some rt
      | none => t.remoteTrackLow

/-- Source `SimulcastTrack.SSRCHigh`: 0 when the high slot is empty. -/
def SSRCHigh (t : SimulcastTrackState) : Nat :=
  match t.remoteTrackHigh with
  | none => 0
  | some rt => rt.ssrc

/-- Source `SimulcastTrack.SSRCMid`: 0 when the mid slot is empty. -/
def SSRCMid (t : SimulcastTrackState) : Nat :=
  match t.remoteTrackMid with
  | none => 0
  | some rt => rt.ssrc

/-- Source `SimulcastTrack.SSRCLow`: 0 when the low slot is empty. -/
def SSRCLow (t : SimulcastTrackState) : Nat :=
  match t.remoteTrackLow with
  | none => 0
  | some rt => rt.ssrc

/-- Source `SimulcastTrack.RIDHigh`: "" when the high slot is empty. -/
def RIDHigh (t : SimulcastTrackState) : String :=
  match t.remoteTrackHigh with
  | none => ""
  | some rt => rt.rid

/-- Source `SimulcastTrack.RIDMid`: "" when the mid slot is empty. -/
def RIDMid (t : SimulcastTrackState) : String :=
  match t.remoteTrackMid with
  | none => ""
  | some rt => rt.rid

/-- Source `SimulcastTrack.RIDLow`: "" when the low slot is empty. -/
def RIDLow (t : SimulcastTrackState) : String :=
  match t.remoteTrackLow with
  | none => ""
  | some rt => rt.rid

end SimulcastTrack

/-- Source `webrtc.RTPCodecType` restricted to the two kinds the modelled
dispatch distinguishes. -/
inductive RTPCodecType where
  | audio
  | video
deriving DecidableEq, Repr

/-- The pion constant `webrtc.MimeTypeVP9`. -/
def MimeTypeVP9 : String := "video/VP9"

/-- Which client-track constructor `Track.subscribe` picks. -/
inductive ClientTrackVariant where
  | scaleable
  | red
  | plain
deriving DecidableEq, Repr

/-- The codec fields of a single-encoding `Track` that `subscribe`
reads: `MimeType()`, `Kind()` and `PayloadType()`. -/
structure TrackInfo where
  mimeType : String
  kind : RTPCodecType
  payloadType : Nat
deriving DecidableEq, Repr

/-- Outcome of `Track.subscribe`: the constructed client-track variant
and whether a PLI was emitted during the call. -/
structure SubscribeResult where
  variant : ClientTrackVariant
  pliSent : Bool
deriving DecidableEq, Repr

namespace Track

/-- Source `Track.subscribe`: VP9 yields the scaleable client-track, else
audio with payload type 63 yields the RED client-track, else the plain
one; then a PLI is sent exactly when the kind is video. -/
def subscribe (t : TrackInfo) : SubscribeResult :=
  let ct :=
    if t.mimeType = MimeTypeVP9 then
      ClientTrackVariant.scaleable
    else if t.kind = RTPCodecType.audio ∧ t.payloadType = 63 then
      ClientTrackVariant.red
    else
      ClientTrackVariant.plain
  { variant := ct, pliSent := t.kind = RTPCodecType.video }

end Track

/-- An RTP packet buffer: abstract header and payload contents plus the
address of the buffer that holds them, so that pointer identity is
observable in the model. -/
structure Packet where
  header : Nat
  payload : Nat
  addr : Nat
deriving DecidableEq, Repr

/-- Pool allocator state: the next fresh buffer address. Allocation is
modelled as an arena handing out distinct addresses; release returns the
buffer and does not affect which addresses future acquires get. -/
structure PoolState where
  next : Nat
deriving DecidableEq, Repr

namespace rtppool

/-- Source `rtppool.GetPacketAllocationFromPool`: acquire a buffer with
uninitialized (zeroed) header and payload at a fresh address. -/
def GetPacketAllocationFromPool (ps : PoolState) : Packet × PoolState :=
  ({ header := 0, payload := 0, addr := ps.next }, { next := ps.next + 1 })

end rtppool

/-- Record of one fan-out delivery: the address of the pool buffer that
was acquired for this recipient, and the packet value the recipient was
actually handed. -/
structure Delivery where
  copyAddr : Nat
  arg : Packet
deriving DecidableEq, Repr

namespace Track

/-- Source `Track.onRead` (the read-callback loop): for each registered
callback acquire a pool buffer, copy the header and payload of `p` into
it, invoke the callback with `p` itself, then release the buffer. The
returned list records, per callback, the acquired buffer's address and
the packet the callback received. -/
def onRead (p : Packet) (nCallbacks : Nat) (ps : PoolState) : List Delivery × PoolState :=
  match nCallbacks with
  | 0 => ([], ps)
  | n + 1 =>
      let a := rtppool.GetPacketAllocationFromPool ps
      let copyPacket := { a.1 with header := p.header, payload := p.payload }
      let d : Delivery := { copyAddr := copyPacket.addr, arg := p }
      let rest := onRead p n a.2
      (d :: rest.1, rest.2)

/-- The client-track loop of the `onRead` closure in `newTrack`: for each
client track acquire a pool buffer, copy the header and payload of `p`
into it, push that copy, then release it. -/
def clientTrackFanout (p : Packet) (nClientTracks : Nat) (ps : PoolState) :
    List Delivery × PoolState :=
  match nClientTracks with
  | 0 => ([], ps)
  | n + 1 =>
      let a := rtppool.GetPacketAllocationFromPool ps
      let copyPacket := { a.1 with header := p.header, payload := p.payload }
      let d : Delivery := { copyAddr := copyPacket.addr, arg := copyPacket }
      let rest := clientTrackFanout p n a.2
      (d :: rest.1, rest.2)

end Track

/-- All deliveries made for one source packet by the `onRead` closure
wired up in `newTrack`. -/
structure FanoutResult where
  pushes : List Delivery
  callbackArgs : List Delivery
  pool : PoolState
deriving DecidableEq, Repr

/-- The `onRead` closure of `newTrack`: fan the source packet out to
every client track (fresh pool copy per recipient), then acquire one
more pool copy of the source packet and run `Track.onRead` on it. -/
def newTrackOnRead (p : Packet) (nClientTracks nCallbacks : Nat) (ps : PoolState) :
    FanoutResult :=
  let pushes := Track.clientTrackFanout p nClientTracks ps
  let a := rtppool.GetPacketAllocationFromPool pushes.2
  let copyPacket := { a.1 with header := p.header, payload := p.payload }
  let cbs := Track.onRead copyPacket nCallbacks a.2
  { pushes := pushes.1, callbackArgs := cbs.1, pool := cbs.2 }

/-- The two registry error values. -/
inductive TrackError where
  | TrackExists
  | TrackIsNotExists
deriving DecidableEq, Repr

/-- A registered track handle as the registry sees it: its `ID()` and a
tag distinguishing distinct handles that share an id. -/
structure TrackHandle where
  id : String
  tag : Nat
deriving DecidableEq, Repr

/-- The `trackList` registry state: the Go map modelled as an
association list keyed by track id (keys unique by construction). -/
structure TrackListState where
  tracks : List (String × TrackHandle)
deriving DecidableEq, Repr

/-- Lookup in the association list modelling the Go map. -/
def findTrack : List (String × TrackHandle) → String → Option TrackHandle
  | [], _ => none
  | kv :: rest, id => if kv.1 = id then some kv.2 else findTrack rest id

namespace trackList

/-- The empty registry produced by `newTrackList`. -/
def empty : TrackListState := { tracks := [] }

/-- Source `trackList.Add`: return `ErrTrackExists` and leave the map
unchanged when the id is present, otherwise insert the track under its
id. The pair carries the Go return value and the post-state. -/
def Add (t : TrackListState) (track : TrackHandle) : Option TrackError × TrackListState :=
  match findTrack t.tracks track.id with
  | some _ => (some TrackError.TrackExists, t)
  | none => (none, { tracks := (track.id, track) :: t.tracks })

/-- Source `trackList.Get`: the track under the id, or
`ErrTrackIsNotExists`. -/
def Get (t : TrackListState) (ID : String) : Except TrackError TrackHandle :=
  match findTrack t.tracks ID with
  | some track => Except.ok track
  | none => Except.error TrackError.TrackIsNotExists

/-- Source `trackList.remove`: delete every given id from the map. -/
def remove (t : TrackListState) (ids : List String) : TrackListState :=
  { tracks := t.tracks.filter fun kv => decide (kv.1 ∉ ids) }

end trackList

/-- Claim C9: RID "high" maps to QualityHigh, "mid" maps to QualityMid,
and any other string — the empty string included — maps to QualityLow. -/
theorem C9_ridToQuality :
    RIDToQuality "high" = QualityLevel.high ∧
    RIDToQuality "mid" = QualityLevel.mid ∧
    RIDToQuality "" = QualityLevel.low ∧
    ∀ s : String, s ≠ "high" → s ≠ "mid" → RIDToQuality s = QualityLevel.low := by
  refine ⟨by decide, by decide, by decide, ?_⟩
  intro s h1 h2
  simp [RIDToQuality, h1, h2]

/-- Witness for C9 at the concrete unknown RID "foo". -/
theorem C9_ridToQuality_witness :
    "foo" ≠ "high" ∧ "foo" ≠ "mid" ∧ RIDToQuality "foo" = QualityLevel.low :=
  ⟨by decide, by decide, C9_ridToQuality.2.2.2 "foo" (by decide) (by decide)⟩

/-- Claim C5: subscribing to a single-encoding Track yields the scaleable
client-track exactly for VP9, the RED client-track exactly for non-VP9
audio with payload type 63, the plain client-track otherwise, and a PLI
is emitted at subscription exactly when the track kind is video. -/
theorem C5_subscribe (t : TrackInfo) :
    ((Track.subscribe t).variant = ClientTrackVariant.scaleable ↔
      t.mimeType = MimeTypeVP9) ∧
    ((Track.subscribe t).variant = ClientTrackVariant.red ↔
      (t.mimeType ≠ MimeTypeVP9 ∧ t.kind = RTPCodecType.audio ∧ t.payloadType = 63)) ∧
    ((Track.subscribe t).variant = ClientTrackVariant.plain ↔
      (t.mimeType ≠ MimeTypeVP9 ∧ ¬(t.kind = RTPCodecType.audio ∧ t.payloadType = 63))) ∧
    ((Track.subscribe t).pliSent = true ↔ t.kind = RTPCodecType.video) := by
  by_cases h1 : t.mimeType = MimeTypeVP9 <;>
    by_cases h2 : t.kind = RTPCodecType.audio ∧ t.payloadType = 63 <;>
      simp [Track.subscribe, h1, h2]

/-- Claim C6: isTrackActive is true exactly when the quality's slot is
occupied and the last read of that quality is within the 500 ms
threshold of the current time; in particular activity implies the last
read was at most 500 ms ago. -/
theorem C6_isTrackActive (t : SimulcastTrackState) (now : Int) (q : QualityLevel) :
    SimulcastTrack.isTrackActive t now q = true ↔
      ((SimulcastTrack.getRemoteTrack t q).isSome ∧
        now - SimulcastTrack.lastReadTS t q ≤ 500 * 1000000) := by
  obtain ⟨hi, mi, lo, a, b, c⟩ := t
  cases q <;>
    simp only [SimulcastTrack.isTrackActive, SimulcastTrack.getRemoteTrack,
      SimulcastTrack.lastReadTS] <;>
    [cases lo; cases mi; cases hi] <;>
    simp

/-- Claim C10: the per-quality SSRC accessors return 0 and the RID
accessors return "" whenever the corresponding quality slot is empty, so
they are total on incomplete bundles. -/
theorem C10_accessors (t : SimulcastTrackState) :
    (t.remoteTrackHigh = none →
      SimulcastTrack.SSRCHigh t = 0 ∧ SimulcastTrack.RIDHigh t = "") ∧
    (t.remoteTrackMid = none →
      SimulcastTrack.SSRCMid t = 0 ∧ SimulcastTrack.RIDMid t = "") ∧
    (t.remoteTrackLow = none →
      SimulcastTrack.SSRCLow t = 0 ∧ SimulcastTrack.RIDLow t = "") := by
  refine ⟨fun h => ?_, fun h => ?_, fun h => ?_⟩ <;>
    simp [SimulcastTrack.SSRCHigh, SimulcastTrack.RIDHigh, SimulcastTrack.SSRCMid,
      SimulcastTrack.RIDMid, SimulcastTrack.SSRCLow, SimulcastTrack.RIDLow, h]

/-- Witness for C10 on the freshly constructed (fully empty) bundle. -/
theorem C10_accessors_witness :
    SimulcastTrack.SSRCHigh emptySimulcast = 0 ∧ SimulcastTrack.RIDHigh emptySimulcast = "" ∧
    SimulcastTrack.SSRCMid emptySimulcast = 0 ∧ SimulcastTrack.RIDMid emptySimulcast = "" ∧
    SimulcastTrack.SSRCLow emptySimulcast = 0 ∧ SimulcastTrack.RIDLow emptySimulcast = "" := by
  have h := C10_accessors emptySimulcast
  exact ⟨(h.1 rfl).1, (h.1 rfl).2, (h.2.1 rfl).1, (h.2.1 rfl).2, (h.2.2 rfl).1, (h.2.2 rfl).2⟩

/-- Claim C1 counterexample: a remote track with the unknown RID "rid-x"
(neither "high" nor "mid") is not rejected: AddRemoteTrack returns a
non-nil handle and installs the track in the low slot. -/
theorem C1_counterexample :
    (SimulcastTrack.AddRemoteTrack emptySimulcast
        { ssrc := 7, rid := "rid-x", isRelay := false }).handle =
      some { ssrc := 7, rid := "rid-x", isRelay := false } ∧
    (SimulcastTrack.AddRemoteTrack emptySimulcast
        { ssrc := 7, rid := "rid-x", isRelay := false }).state.remoteTrackLow =
      some { ssrc := 7, rid := "rid-x", isRelay := false } := by
  decide

/-- Claim C1 (amended): a remote track whose RID is neither "high" nor
"mid" is assigned QualityLow, installed in the low slot, and returned as
a non-nil handle; the nil-returning rejection branch of AddRemoteTrack
is unreachable because RIDToQuality maps every such RID to low. -/
theorem C1_amended (t : SimulcastTrackState) (track : RemoteTrackModel)
    (h1 : track.rid ≠ "high") (h2 : track.rid ≠ "mid") :
    (SimulcastTrack.AddRemoteTrack t track).handle = some track ∧
    (SimulcastTrack.AddRemoteTrack t track).state.remoteTrackLow = some track := by
  have hq : RIDToQuality track.rid = QualityLevel.low := by
    simp [RIDToQuality, h1, h2]
  simp [SimulcastTrack.AddRemoteTrack, hq]

/-- Witness for C1 (amended) at the concrete RID "lo". -/
theorem C1_amended_witness :
    "lo" ≠ "high" ∧ "lo" ≠ "mid" ∧
    (SimulcastTrack.AddRemoteTrack emptySimulcast
        { ssrc := 1, rid := "lo", isRelay := false }).handle =
      some { ssrc := 1, rid := "lo", isRelay := false } :=
  ⟨by decide, by decide,
    (C1_amended emptySimulcast { ssrc := 1, rid := "lo", isRelay := false }
      (by decide) (by decide)).1⟩

/-- Claim C3 counterexample: a bundle whose high slot holds a non-relay
track while its low slot holds a relay track: an occupied slot is a
relay, yet IsRelay returns false. -/
theorem C3_counterexample :
    SimulcastTrack.IsRelay
        { remoteTrackHigh := some { ssrc := 1, rid := "high", isRelay := false }
          remoteTrackMid := none
          remoteTrackLow := some { ssrc := 3, rid := "low", isRelay := true }
          lastReadHighTS := 0, lastReadMidTS := 0, lastReadLowTS := 0 } = false ∧
    SimulcastTrack.anyOccupiedRelay
        { remoteTrackHigh := some { ssrc := 1, rid := "high", isRelay := false }
          remoteTrackMid := none
          remoteTrackLow := some { ssrc := 3, rid := "low", isRelay := true }
          lastReadHighTS := 0, lastReadMidTS := 0, lastReadLowTS := 0 } = true := by
  decide

/-- Claim C3 (amended): IsRelay returns the relay flag of the first
occupied quality slot in the order high, mid, low, and false when every
slot is empty; relay flags of occupied lower slots are ignored whenever
a higher slot is occupied. -/
theorem C3_amended (t : SimulcastTrackState) :
    SimulcastTrack.IsRelay t =
      ((SimulcastTrack.firstOccupied t).map fun rt => rt.isRelay).getD false := by
  obtain ⟨hi, mi, lo, a, b, c⟩ := t
  cases hi <;> cases mi <;> cases lo <;>
    simp [SimulcastTrack.IsRelay, SimulcastTrack.firstOccupied]

/-- Claim C4 counterexample: adding remote tracks with RIDs high, mid,
low and then a second low-RID track runs the completion callbacks twice
— at the third add and again at the fourth — refuting "fires exactly
once and never fires again". -/
theorem C4_counterexample :
    (SimulcastTrack.addTracks emptySimulcast
        [{ ssrc := 1, rid := "high", isRelay := false },
         { ssrc := 2, rid := "mid", isRelay := false },
         { ssrc := 3, rid := "low", isRelay := false },
         { ssrc := 4, rid := "low", isRelay := false }]).2 = 2 := by
  decide

/-- Claim C4 (amended): on a fresh bundle, adding three remote tracks of
pairwise-distinct qualities runs the completion callbacks zero times
before the bundle is complete and exactly once in total, at the add that
first makes the high, mid and low slots simultaneously occupied; the
signal is only re-fired by a further add performed while all three slots
are occupied (as in the counterexample), and it is never revoked. -/
theorem C4_amended (tr1 tr2 tr3 : RemoteTrackModel)
    (h12 : RIDToQuality tr1.rid ≠ RIDToQuality tr2.rid)
    (h13 : RIDToQuality tr1.rid ≠ RIDToQuality tr3.rid)
    (h23 : RIDToQuality tr2.rid ≠ RIDToQuality tr3.rid) :
    (SimulcastTrack.addTracks emptySimulcast [tr1]).2 = 0 ∧
    (SimulcastTrack.addTracks emptySimulcast [tr1, tr2]).2 = 0 ∧
    (SimulcastTrack.addTracks emptySimulcast [tr1, tr2, tr3]).2 = 1 := by
  cases hq1 : RIDToQuality tr1.rid <;> cases hq2 : RIDToQuality tr2.rid <;>
    cases hq3 : RIDToQuality tr3.rid <;>
    simp_all [SimulcastTrack.addTracks, SimulcastTrack.AddRemoteTrack, emptySimulcast]

/-- Witness for C4 (amended) with concrete RIDs "high", "mid", "low". -/
theorem C4_amended_witness :
    (SimulcastTrack.addTracks emptySimulcast
        [{ ssrc := 1, rid := "high", isRelay := false },
         { ssrc := 2, rid := "mid", isRelay := false }]).2 = 0 ∧
    (SimulcastTrack.addTracks emptySimulcast
        [{ ssrc := 1, rid := "high", isRelay := false },
         { ssrc := 2, rid := "mid", isRelay := false },
         { ssrc := 3, rid := "low", isRelay := false }]).2 = 1 := by
  have h := C4_amended
    { ssrc := 1, rid := "high", isRelay := false }
    { ssrc := 2, rid := "mid", isRelay := false }
    { ssrc := 3, rid := "low", isRelay := false }
    (by decide) (by decide) (by decide)
  exact ⟨h.2.1, h.2.2⟩

/-- Claim C7: after a successful Add of a track, a second Add of a track
with the same id returns TrackExists and leaves the registry unchanged,
and the first handle remains retrievable by Get. -/
theorem C7_duplicate_add (s : TrackListState) (t1 t2 : TrackHandle)
    (hid : t2.id = t1.id)
    (h : (trackList.Add s t1).1 = none) :
    (trackList.Add (trackList.Add s t1).2 t2).1 = some TrackError.TrackExists ∧
    (trackList.Add (trackList.Add s t1).2 t2).2 = (trackList.Add s t1).2 ∧
    trackList.Get (trackList.Add s t1).2 t1.id = Except.ok t1 := by
  cases hf : findTrack s.tracks t1.id with
  | some tr =>
      exfalso
      simp [trackList.Add, hf] at h
  | none =>
      refine ⟨?_, ?_, ?_⟩ <;> simp [trackList.Add, trackList.Get, findTrack, hf, hid]

/-- Witness for C7: two handles with id "abc" on the empty registry. -/
theorem C7_duplicate_add_witness :
    (trackList.Add (trackList.Add trackList.empty { id := "abc", tag := 0 }).2
        { id := "abc", tag := 1 }).1 = some TrackError.TrackExists ∧
    trackList.Get (trackList.Add trackList.empty { id := "abc", tag := 0 }).2 "abc" =
      Except.ok { id := "abc", tag := 0 } := by
  have h := C7_duplicate_add trackList.empty { id := "abc", tag := 0 }
    { id := "abc", tag := 1 } (by decide) (by decide)
  exact ⟨h.1, h.2.2⟩

/-- After filtering out every entry keyed by `id`, lookup of `id` fails:
the heart of `remove` followed by `Get`. -/
theorem findTrack_filter_self (l : List (String × TrackHandle)) (id : String) :
    findTrack (l.filter fun kv => !decide (kv.1 = id)) id = none := by
  induction l with
  | nil => simp [findTrack]
  | cons kv rest ih =>
      by_cases hm : kv.1 = id
      · simp [List.filter_cons, hm, ih]
      · simp [List.filter_cons, hm, findTrack, ih]

/-- Claim C8: a successful Add followed by Get of the track's id returns
the same handle, and after remove of that id, Get returns
TrackIsNotExists. -/
theorem C8_add_get_remove (s : TrackListState) (tr : TrackHandle)
    (h : (trackList.Add s tr).1 = none) :
    trackList.Get (trackList.Add s tr).2 tr.id = Except.ok tr ∧
    trackList.Get (trackList.remove (trackList.Add s tr).2 [tr.id]) tr.id =
      Except.error TrackError.TrackIsNotExists := by
  cases hf : findTrack s.tracks tr.id with
  | some u =>
      exfalso
      simp [trackList.Add, hf] at h
  | none =>
      have hstate : (trackList.Add s tr).2 = { tracks := (tr.id, tr) :: s.tracks } := by
        simp [trackList.Add, hf]
      constructor
      · rw [hstate]
        simp [trackList.Get, findTrack]
      · rw [hstate]
        simp [trackList.remove, trackList.Get, List.filter_cons,
          findTrack_filter_self s.tracks tr.id]

/-- Witness for C8: a handle with id "xyz" on the empty registry. -/
theorem C8_add_get_remove_witness :
    trackList.Get (trackList.Add trackList.empty { id := "xyz", tag := 5 }).2 "xyz" =
      Except.ok { id := "xyz", tag := 5 } ∧
    trackList.Get
        (trackList.remove (trackList.Add trackList.empty { id := "xyz", tag := 5 }).2
          ["xyz"]) "xyz" =
      Except.error TrackError.TrackIsNotExists :=
  C8_add_get_remove trackList.empty { id := "xyz", tag := 5 } (by decide)

/-- Claim C2, evaluated at the failing input: one source packet held in
buffer 100, two subscribed client tracks, two registered read-callbacks,
pool handing out addresses from 0. The client-track pushes each receive
the buffer freshly acquired for them (addresses 0 and 1, the prescribed
discipline), but both read-callbacks receive the single shared copy at
address 2 rather than the buffers freshly acquired for them (addresses 3
and 4): the per-callback pool copy is acquired, left unused, and
released, and the callback gets the packet pointer `p` instead. -/
theorem C2_bug_eval :
    (newTrackOnRead { header := 5, payload := 7, addr := 100 } 2 2 { next := 0 }).pushes =
      [{ copyAddr := 0, arg := { header := 5, payload := 7, addr := 0 } },
       { copyAddr := 1, arg := { header := 5, payload := 7, addr := 1 } }] ∧
    (newTrackOnRead { header := 5, payload := 7, addr := 100 } 2 2 { next := 0 }).callbackArgs =
      [{ copyAddr := 3, arg := { header := 5, payload := 7, addr := 2 } },
       { copyAddr := 4, arg := { header := 5, payload := 7, addr := 2 } }] := by
  decide
